import Mathlib

/-!
Shallow embedding of `src/video_upload_backend/src/api/main.py`, a FastAPI
service that streams a single uploaded file to the directory `/upload`,
enforcing a 500 MiB ceiling, and theorems settling the specification claims
about it.

Modelling conventions:
* bytes are `Nat`, byte strings are `List Nat`, the content stream is the
  list of chunks successive `file.read(chunk_size)` calls return (an empty
  chunk means end of stream, as for a real file stream);
* Python exceptions raised by the OS (mkdir, chmod, open, write) are injected
  through an explicit environment `Env`; `unlink` of an existing regular file
  is modelled as succeeding (the code wraps it in `try/except pass` either way);
* an `HTTPException` is represented by its status code (`400`, `413`, `500`);
* the destination file's on-disk content is tracked explicitly, `none`
  meaning no file with the sanitized name exists.
-/

/-- Kinds of Python exceptions the environment can inject.  `permissionError`
corresponds to `PermissionError` (the only kind `ensure_upload_dir_exists`
swallows for `chmod`); `isADirectoryError` is what `open("wb")` raises on a
directory path; `ioError` stands for any other `OSError`/`Exception`. -/
inductive PyExc where
  | permissionError
  | isADirectoryError
  | ioError
  deriving DecidableEq, Repr

/-- `MAX_VIDEO_SIZE_BYTES = 500 * 1024 * 1024` from main.py line 11. -/
def MAX_VIDEO_SIZE_BYTES : Nat := 500 * 1024 * 1024

/-- `UPLOAD_DIR = Path("/upload")` from main.py line 12. -/
def UPLOAD_DIR : String := "/upload"

/-- Chunk size used by the streaming loop, `1024 * 1024` (main.py line 180). -/
def chunk_size : Nat := 1024 * 1024

/-- State of the upload directory: whether it exists, and an identity token
(inode) that changes exactly when the directory is freshly created. -/
structure DirState where
  present : Bool
  ident : Nat
  deriving DecidableEq, Repr

/-- Environment of OS outcomes for one request: whether `mkdir` succeeds when
the directory is absent, what `os.chmod` raises (`none` = success), what
opening the destination raises (`none` = success), and the index of the write
call that raises (`none` = all writes succeed). -/
structure Env where
  mkdirOk : Bool
  chmodExc : Option PyExc
  openExc : Option PyExc
  writeExcAt : Option Nat
  deriving DecidableEq, Repr

/-- `ensure_upload_dir_exists` (main.py lines 15-31).
`UPLOAD_DIR.mkdir(parents=True, exist_ok=True)` succeeds without change when
the directory is present, creates it (fresh identity) when `mkdir` succeeds,
and raises otherwise.  `os.chmod(UPLOAD_DIR, 0o700)` follows; only a
`PermissionError` from it is caught and ignored, any other exception reaches
the outer `except Exception` and becomes an HTTP 500. -/
def ensure_upload_dir_exists (mkdirOk : Bool) (chmodExc : Option PyExc)
    (d : DirState) : Except Nat DirState :=
  if d.present then
    match chmodExc with
    | none => Except.ok d
    | some PyExc.permissionError => Except.ok d
    | some _ => Except.error 500
  else if mkdirOk then
    let d' : DirState := { present := true, ident := d.ident + 1 }
    match chmodExc with
    | none => Except.ok d'
    | some PyExc.permissionError => Except.ok d'
    | some _ => Except.error 500
  else Except.error 500

/-- `ensure_upload_dir_exists` iterated `n` times (stopping at the first
error), to state the idempotence claim about calling prepare N times. -/
def prepareN (mkdirOk : Bool) (chmodExc : Option PyExc) :
    Nat → DirState → Except Nat DirState
  | 0, d => Except.ok d
  | n + 1, d =>
    (ensure_upload_dir_exists mkdirOk chmodExc d).bind
      (prepareN mkdirOk chmodExc n)

/-- Whitespace as removed by Python `str.strip()` (restricted to the ASCII
whitespace characters: space, tab, newline, carriage return, vertical tab,
form feed). -/
def pyIsSpace (c : Char) : Bool :=
  c = ' ' || c = '\t' || c = '\n' || c = '\r' ||
  c = Char.ofNat 11 || c = Char.ofNat 12

/-- Python `str.strip()` on a character list: drop whitespace from both ends. -/
def pyStripChars (l : List Char) : List Char :=
  ((l.dropWhile pyIsSpace).reverse.dropWhile pyIsSpace).reverse

/-- Python `str.strip()`. -/
def pyStrip (s : String) : String := String.mk (pyStripChars s.toList)

/-- `os.path.basename` on POSIX returns the suffix after the last `'/'`
(`p[p.rfind('/')+1:]`): scanning left to right, a separator resets the
accumulated component. -/
def basenameChars (l : List Char) : List Char :=
  l.foldl (fun acc c => if c = '/' then [] else acc ++ [c]) []

/-- `os.path.basename` for POSIX paths. -/
def basename (s : String) : String := String.mk (basenameChars s.toList)

/-- `safe_filename = os.path.basename(file.filename or "").strip()`
(main.py line 162); `filename or ""` maps both `None` and `""` to `""`. -/
def safeName (raw : String) : String := pyStrip (basename raw)

/-- Modelled from the spec: the "final path component" of a client-supplied
name, defined from the right-hand end as the longest suffix free of the
separator `'/'` (spec sections 3 and 8 on filename sanitization).  Used as
the independent reference point for the sanitization claim. -/
def specFinalComponent (s : String) : String :=
  String.mk ((s.toList.reverse.takeWhile (fun c => c ≠ '/')).reverse)

/-- Numeric value of a decimal digit character. -/
def digitVal (c : Char) : Nat := c.toNat - 48

/-- Tail of CPython's integer-literal grammar `digit (["_"] digit)*`: after a
first digit has been consumed into `acc`, each further digit may be preceded
by a single underscore; a trailing or doubled underscore is an error. -/
def pyDigitsGo (acc : Nat) : List Char → Option Nat
  | [] => some acc
  | c :: cs =>
    if c = '_' then
      match cs with
      | [] => none
      | c2 :: cs2 =>
        if c2.isDigit then pyDigitsGo (10 * acc + digitVal c2) cs2 else none
    else if c.isDigit then pyDigitsGo (10 * acc + digitVal c) cs
    else none

/-- CPython digit sequence: at least one digit, underscores only between
digits. -/
def pyDigits : List Char → Option Nat
  | [] => none
  | c :: cs => if c.isDigit then pyDigitsGo (digitVal c) cs else none

/-- Python `int(s)` on a string: surrounding whitespace is stripped, an
optional single sign precedes a digit sequence with optional single
underscores between digits; anything else raises `ValueError` (`none`).
Note Python's `int` accepts negative values. -/
def pyParseInt (s : String) : Option Int :=
  match (pyStrip s).toList with
  | '+' :: rest => (pyDigits rest).map (fun n => (n : Int))
  | '-' :: rest => (pyDigits rest).map (fun n => -(n : Int))
  | l => (pyDigits l).map (fun n => (n : Int))

/-- `_validate_content_length` (main.py lines 90-115): absent header passes
with `none`; an unparseable header raises HTTP 400; a parsed size strictly
greater than `MAX_VIDEO_SIZE_BYTES` raises HTTP 413; otherwise the parsed
size is returned. -/
def _validate_content_length (header : Option String) :
    Except Nat (Option Int) :=
  match header with
  | none => Except.ok none
  | some s =>
    match pyParseInt s with
    | none => Except.error 400
    | some size =>
      if size > (MAX_VIDEO_SIZE_BYTES : Int) then Except.error 413
      else Except.ok (some size)

/-- Result of the streaming loop of `upload_video` (main.py lines 182-213):
the destination file's content after the loop and its exception handlers
(`none` when the partial file was unlinked), the outcome (total bytes written
on success, HTTP status on failure), and the file's size after each
successful `out_file.write` call, in order. -/
structure LoopOut where
  content : Option (List Nat)
  result : Except Nat Nat
  trace : List Nat
  deriving Repr

/-- The `while True` loop of `upload_video` (main.py lines 184-200) together
with its exception handling: read a chunk (next list element; an empty chunk
or list end breaks the loop), add its length to the running total, on
overflow close and unlink the partial file and raise 413; otherwise write the
chunk (a write that raises is caught by `except Exception`, which unlinks the
partial file and raises 500).  `acc` is the file content written so far,
`total` the running total, `widx` the index of the next write call. -/
def receiveLoop (writeExcAt : Option Nat) : List (List Nat) →
    List Nat → Nat → Nat → LoopOut
  | [], acc, total, _ => ⟨some acc, Except.ok total, []⟩
  | c :: rest, acc, total, widx =>
    if c.isEmpty then ⟨some acc, Except.ok total, []⟩
    else
      let total' := total + c.length
      if total' > MAX_VIDEO_SIZE_BYTES then
        ⟨none, Except.error 413, []⟩
      else if writeExcAt = some widx then
        ⟨none, Except.error 500, []⟩
      else
        let r := receiveLoop writeExcAt rest (acc ++ c) total' (widx + 1)
        ⟨r.content, r.result, (acc.length + c.length) :: r.trace⟩

/-- Observable outcome of one `POST /upload` request: HTTP status (`200` on
success), the response's `filename` and `size_bytes` fields (present only on
success), the destination file's content on disk after the request, the path
that was opened (when execution reached the open), whether
`await file.close()` ran, and the file sizes observed after each write. -/
structure UploadOutcome where
  status : Nat
  respFilename : Option String
  size_bytes : Option Nat
  fileOnDisk : Option (List Nat)
  destination : Option String
  streamClosed : Bool
  writeTrace : List Nat
  deriving Repr

/-- `upload_video` (main.py lines 138-221).  The `Depends` hook runs
`_validate_content_length` first; then `ensure_upload_dir_exists`; then the
filename is sanitized and an empty result raises HTTP 400; then the
destination is opened for writing, truncating it (an exception from `open`
is caught by `except Exception`, which unlinks best-effort and raises 500);
then the streaming loop runs; the `finally` block closes the stream whenever
the `try` was entered.  `initFile` is the destination file's prior content. -/
def upload_video (env : Env) (d : DirState) (header : Option String)
    (filename : Option String) (chunks : List (List Nat))
    (initFile : Option (List Nat)) : UploadOutcome :=
  match _validate_content_length header with
  | Except.error code => ⟨code, none, none, initFile, none, false, []⟩
  | Except.ok _ =>
    match ensure_upload_dir_exists env.mkdirOk env.chmodExc d with
    | Except.error code => ⟨code, none, none, initFile, none, false, []⟩
    | Except.ok _ =>
      let safe_filename := safeName (filename.getD "")
      if safe_filename = "" then ⟨400, none, none, initFile, none, false, []⟩
      else
        let dest := UPLOAD_DIR ++ "/" ++ safe_filename
        match env.openExc with
        | some _ => ⟨500, none, none, none, some dest, true, []⟩
        | none =>
          let r := receiveLoop env.writeExcAt chunks [] 0 0
          match r.result with
          | Except.ok total =>
            ⟨200, some safe_filename, some total, r.content, some dest, true,
              r.trace⟩
          | Except.error code =>
            ⟨code, none, none, r.content, some dest, true, r.trace⟩

example : MAX_VIDEO_SIZE_BYTES = 524288000 := by decide

/-! ## Helper lemmas -/

/-- When chmod succeeds or raises only `PermissionError` and the directory is
already present, `ensure_upload_dir_exists` returns without error or change. -/
lemma ensure_ok_of_present (mk : Bool) (ce : Option PyExc) (d : DirState)
    (hp : d.present = true)
    (hc : ce = none ∨ ce = some PyExc.permissionError) :
    ensure_upload_dir_exists mk ce d = Except.ok d := by
  rcases hc with hc | hc <;> simp [ensure_upload_dir_exists, hp, hc]

/-- Parsed declared size over the limit makes the pre-check raise 413. -/
lemma precheck_over (s : String) (v : Int) (hv : pyParseInt s = some v)
    (hbig : (MAX_VIDEO_SIZE_BYTES : Int) < v) :
    _validate_content_length (some s) = Except.error 413 := by
  simp [_validate_content_length, hv, hbig]

/-- With no injected write failure and every yielded chunk nonempty, a stream
whose total fits under the limit is written out whole: the file content is the
accumulator followed by the concatenation of the chunks, and the loop reports
the full running total. -/
lemma receiveLoop_ok (chunks : List (List Nat)) :
    ∀ (acc : List Nat) (total widx : Nat),
      (∀ c ∈ chunks, c ≠ []) →
      total + (chunks.map List.length).sum ≤ MAX_VIDEO_SIZE_BYTES →
      (receiveLoop none chunks acc total widx).content =
        some (acc ++ chunks.flatten) ∧
      (receiveLoop none chunks acc total widx).result =
        Except.ok (total + (chunks.map List.length).sum) := by
  induction chunks with
  | nil =>
    intro acc total widx _ _
    simp [receiveLoop]
  | cons c rest ih =>
    intro acc total widx hne hle
    have hc : c ≠ [] := hne c (List.mem_cons_self _ _)
    have hcne : c.isEmpty = false := by
      simpa [List.isEmpty_iff] using hc
    have hsum : total + (c.length + (rest.map List.length).sum) ≤
        MAX_VIDEO_SIZE_BYTES := by simpa using hle
    have hnot : ¬ (total + c.length > MAX_VIDEO_SIZE_BYTES) := by omega
    have hih := ih (acc ++ c) (total + c.length) (widx + 1)
      (fun x hx => hne x (List.mem_cons_of_mem _ hx)) (by omega)
    simp only [receiveLoop, hcne, Bool.false_eq_true, if_false, hnot,
      if_neg hnot, reduceCtorEq, ite_false] at hih ⊢
    refine ⟨?_, ?_⟩
    · rw [hih.1]; simp
    · rw [hih.2]; congr 1; simp; omega

/-- With no injected write failure and nonempty chunks, a stream whose total
exceeds the limit makes the loop unlink the partial file and raise 413. -/
lemma receiveLoop_over (chunks : List (List Nat)) :
    ∀ (acc : List Nat) (total widx : Nat),
      (∀ c ∈ chunks, c ≠ []) →
      total ≤ MAX_VIDEO_SIZE_BYTES →
      MAX_VIDEO_SIZE_BYTES < total + (chunks.map List.length).sum →
      (receiveLoop none chunks acc total widx).content = none ∧
      (receiveLoop none chunks acc total widx).result = Except.error 413 := by
  induction chunks with
  | nil =>
    intro acc total widx _ hle hbig
    simp at hbig
    omega
  | cons c rest ih =>
    intro acc total widx hne hle hbig
    have hc : c ≠ [] := hne c (List.mem_cons_self _ _)
    have hcne : c.isEmpty = false := by
      simpa [List.isEmpty_iff] using hc
    have hbig' : MAX_VIDEO_SIZE_BYTES <
        total + (c.length + (rest.map List.length).sum) := by simpa using hbig
    by_cases hover : total + c.length > MAX_VIDEO_SIZE_BYTES
    · simp [receiveLoop, hcne, hover]
    · have hih := ih (acc ++ c) (total + c.length) (widx + 1)
        (fun x hx => hne x (List.mem_cons_of_mem _ hx)) (by omega) (by omega)
      simp only [receiveLoop, hcne, Bool.false_eq_true, if_false,
        if_neg hover, reduceCtorEq, ite_false] at hih ⊢
      exact hih

/-- Invariant of the streaming loop: when the accumulated file content has
exactly `total` bytes at entry, every file size recorded after a write is at
most the limit (the chunk that would push the total over is never written). -/
lemma receiveLoop_trace_le (wex : Option Nat) (chunks : List (List Nat)) :
    ∀ (acc : List Nat) (total widx : Nat),
      acc.length = total →
      ∀ x ∈ (receiveLoop wex chunks acc total widx).trace,
        x ≤ MAX_VIDEO_SIZE_BYTES := by
  induction chunks with
  | nil =>
    intro acc total widx _ x hx
    simp [receiveLoop] at hx
  | cons c rest ih =>
    intro acc total widx hacc x hx
    by_cases hce : c.isEmpty
    · simp [receiveLoop, hce] at hx
    · by_cases hover : total + c.length > MAX_VIDEO_SIZE_BYTES
      · simp [receiveLoop, hce, hover] at hx
      · by_cases hw : wex = some widx
        · simp [receiveLoop, hce, hover, hw] at hx
        · simp only [receiveLoop, hce, Bool.false_eq_true, if_false,
            if_neg hover, hw, ite_false, List.mem_cons] at hx
          rcases hx with hx | hx
          · omega
          · exact ih (acc ++ c) (total + c.length) (widx + 1)
              (by simp [hacc]) x hx

/-- The left-to-right reset fold computing `os.path.basename` agrees with the
right-to-left description "longest suffix free of a separator". -/
lemma basenameChars_eq_suffix (l : List Char) :
    basenameChars l = (l.reverse.takeWhile (fun c => c ≠ '/')).reverse := by
  induction l using List.reverseRecOn with
  | nil => rfl
  | append_singleton xs x ih =>
    by_cases hx : x = '/'
    · simp [basenameChars, List.foldl_append, hx]
    · have ih' : List.foldl (fun acc c => if c = '/' then [] else acc ++ [c])
          [] xs = (List.takeWhile (fun c => !decide (c = '/')) xs.reverse).reverse := by
        simpa [basenameChars] using ih
      simp [basenameChars, List.foldl_append, List.takeWhile, hx, ih']

/-- `os.path.basename` computes exactly the spec's "final path component". -/
lemma basename_eq_specFinalComponent (s : String) :
    basename s = specFinalComponent s := by
  unfold basename specFinalComponent
  rw [basenameChars_eq_suffix]

/-- Happy-path behaviour of the handler: pre-check passes, directory
preparation succeeds, the sanitized name is nonempty, no I/O fault is
injected, and the stream's total fits under the limit; then the request
succeeds, the file on disk is the concatenation of the chunks, and the
response reports the exact byte total. -/
lemma upload_success_spec (env : Env) (d : DirState) (header : Option String)
    (fn : Option String) (chunks : List (List Nat))
    (initFile : Option (List Nat))
    (hopen : env.openExc = none) (hwrite : env.writeExcAt = none)
    (hprep : ∃ d', ensure_upload_dir_exists env.mkdirOk env.chmodExc d =
      Except.ok d')
    (hhdr : ∃ r, _validate_content_length header = Except.ok r)
    (hname : safeName (fn.getD "") ≠ "")
    (hchunks : ∀ c ∈ chunks, c ≠ [])
    (hsize : (chunks.map List.length).sum ≤ MAX_VIDEO_SIZE_BYTES) :
    (upload_video env d header fn chunks initFile).status = 200 ∧
    (upload_video env d header fn chunks initFile).respFilename =
      some (safeName (fn.getD "")) ∧
    (upload_video env d header fn chunks initFile).size_bytes =
      some ((chunks.map List.length).sum) ∧
    (upload_video env d header fn chunks initFile).fileOnDisk =
      some chunks.flatten := by
  obtain ⟨d', hd⟩ := hprep
  obtain ⟨r0, hr⟩ := hhdr
  have hl := receiveLoop_ok chunks [] 0 0 hchunks (by simpa using hsize)
  unfold upload_video
  rw [hr, hd, hwrite, hopen]
  simp only [if_neg hname]
  rw [hl.2]
  simp [hl.1]

/-- Streaming-overflow behaviour of the handler: with the pre-check passing
and the stream's total over the limit, the request fails with 413 and the
partially written file is removed. -/
lemma upload_toolarge_spec (env : Env) (d : DirState) (header : Option String)
    (fn : Option String) (chunks : List (List Nat))
    (initFile : Option (List Nat))
    (hopen : env.openExc = none) (hwrite : env.writeExcAt = none)
    (hprep : ∃ d', ensure_upload_dir_exists env.mkdirOk env.chmodExc d =
      Except.ok d')
    (hhdr : ∃ r, _validate_content_length header = Except.ok r)
    (hname : safeName (fn.getD "") ≠ "")
    (hchunks : ∀ c ∈ chunks, c ≠ [])
    (hsize : MAX_VIDEO_SIZE_BYTES < (chunks.map List.length).sum) :
    (upload_video env d header fn chunks initFile).status = 413 ∧
    (upload_video env d header fn chunks initFile).fileOnDisk = none := by
  obtain ⟨d', hd⟩ := hprep
  obtain ⟨r0, hr⟩ := hhdr
  have hl := receiveLoop_over chunks [] 0 0 hchunks (by omega)
    (by simpa using hsize)
  unfold upload_video
  rw [hr, hd, hwrite, hopen]
  simp only [if_neg hname]
  rw [hl.2]
  simp [hl.1]

/-! ## Claim theorems -/

/-- Claim C1: for every upload whose total byte length (the sum of the chunk
lengths the content stream yields) is at most `500 * 1024 * 1024`, the receive
operation succeeds, the saved destination file's bytes are the concatenation
of the input chunks in order, and the reported `size_bytes` equals that total
exactly.  (Stated for requests that reach the receive path: pre-check passes,
directory preparation succeeds, the sanitized filename is nonempty, and no
open/write fault is injected.) -/
theorem upload_within_limit_saves_exact_content (env : Env) (d : DirState)
    (header : Option String) (fn : Option String) (chunks : List (List Nat))
    (initFile : Option (List Nat))
    (hopen : env.openExc = none) (hwrite : env.writeExcAt = none)
    (hprep : ∃ d', ensure_upload_dir_exists env.mkdirOk env.chmodExc d =
      Except.ok d')
    (hhdr : ∃ r, _validate_content_length header = Except.ok r)
    (hname : safeName (fn.getD "") ≠ "")
    (hchunks : ∀ c ∈ chunks, c ≠ [])
    (hsize : (chunks.map List.length).sum ≤ MAX_VIDEO_SIZE_BYTES) :
    (upload_video env d header fn chunks initFile).status = 200 ∧
    (upload_video env d header fn chunks initFile).fileOnDisk =
      some chunks.flatten ∧
    (upload_video env d header fn chunks initFile).size_bytes =
      some ((chunks.map List.length).sum) := by
  have h := upload_success_spec env d header fn chunks initFile hopen hwrite
    hprep hhdr hname hchunks hsize
  exact ⟨h.1, h.2.2.2, h.2.2.1⟩

/-- Witness for C1 at a concrete three-byte upload. -/
theorem upload_within_limit_saves_exact_content_witness :
    (upload_video ⟨true, none, none, none⟩ ⟨true, 0⟩ none (some "v.mp4")
      [[1, 2, 3]] none).status = 200 ∧
    (upload_video ⟨true, none, none, none⟩ ⟨true, 0⟩ none (some "v.mp4")
      [[1, 2, 3]] none).fileOnDisk = some ([[1, 2, 3]] : List (List Nat)).flatten ∧
    (upload_video ⟨true, none, none, none⟩ ⟨true, 0⟩ none (some "v.mp4")
      [[1, 2, 3]] none).size_bytes =
      some ((([[1, 2, 3]] : List (List Nat)).map List.length).sum) :=
  upload_within_limit_saves_exact_content ⟨true, none, none, none⟩ ⟨true, 0⟩
    none (some "v.mp4") [[1, 2, 3]] none rfl rfl ⟨⟨true, 0⟩, rfl⟩ ⟨none, rfl⟩
    (by decide) (by decide) (by decide)

/-- Claim C2: an upload whose total exceeds `500 * 1024 * 1024` — whether the
excess is declared in the `Content-Length` header or discovered while
streaming — fails with 413 and leaves no file with the sanitized target name
on disk (starting from a state with no pre-existing destination file). -/
theorem upload_over_limit_413_and_no_file (env : Env) (d : DirState)
    (header : Option String) (fn : Option String) (chunks : List (List Nat))
    (hopen : env.openExc = none) (hwrite : env.writeExcAt = none)
    (hprep : ∃ d', ensure_upload_dir_exists env.mkdirOk env.chmodExc d =
      Except.ok d')
    (hname : safeName (fn.getD "") ≠ "")
    (hchunks : ∀ c ∈ chunks, c ≠ [])
    (hbig : (∃ s v, header = some s ∧ pyParseInt s = some v ∧
              (MAX_VIDEO_SIZE_BYTES : Int) < v) ∨
            ((∃ r, _validate_content_length header = Except.ok r) ∧
              MAX_VIDEO_SIZE_BYTES < (chunks.map List.length).sum)) :
    (upload_video env d header fn chunks none).status = 413 ∧
    (upload_video env d header fn chunks none).fileOnDisk = none := by
  rcases hbig with ⟨s, v, hs, hv, hgt⟩ | ⟨hok, hsum⟩
  · subst hs
    have h413 := precheck_over s v hv hgt
    unfold upload_video
    rw [h413]
    exact ⟨rfl, rfl⟩
  · exact upload_toolarge_spec env d header fn chunks none hopen hwrite hprep
      hok hname hchunks hsum

/-- Witness for C2: a header declaring 600000000 bytes is rejected with 413
and no destination file exists afterwards. -/
theorem upload_over_limit_413_and_no_file_witness :
    (upload_video ⟨true, none, none, none⟩ ⟨true, 0⟩ (some "600000000")
      (some "v.mp4") [] none).status = 413 ∧
    (upload_video ⟨true, none, none, none⟩ ⟨true, 0⟩ (some "600000000")
      (some "v.mp4") [] none).fileOnDisk = none :=
  upload_over_limit_413_and_no_file ⟨true, none, none, none⟩ ⟨true, 0⟩
    (some "600000000") (some "v.mp4") [] rfl rfl ⟨⟨true, 0⟩, rfl⟩ (by decide)
    (by decide) (Or.inl ⟨"600000000", 600000000, rfl, rfl, by decide⟩)

/-- Claim C3: both size checks are strict.  A declared `Content-Length` of
exactly `524288000 = 500 * 1024 * 1024` passes the pre-check and a stream of
exactly that many bytes succeeds, while one more byte — declared or actual —
fails with 413. -/
theorem size_limit_boundary_strict (env : Env) (d : DirState)
    (fn : Option String) (chunksA chunksB : List (List Nat))
    (hopen : env.openExc = none) (hwrite : env.writeExcAt = none)
    (hprep : ∃ d', ensure_upload_dir_exists env.mkdirOk env.chmodExc d =
      Except.ok d')
    (hname : safeName (fn.getD "") ≠ "")
    (hA1 : ∀ c ∈ chunksA, c ≠ [])
    (hA2 : (chunksA.map List.length).sum = MAX_VIDEO_SIZE_BYTES)
    (hB1 : ∀ c ∈ chunksB, c ≠ [])
    (hB2 : (chunksB.map List.length).sum = MAX_VIDEO_SIZE_BYTES + 1) :
    _validate_content_length (some "524288000") = Except.ok (some 524288000) ∧
    _validate_content_length (some "524288001") = Except.error 413 ∧
    (upload_video env d none fn chunksA none).status = 200 ∧
    (upload_video env d none fn chunksB none).status = 413 := by
  refine ⟨rfl, rfl, ?_, ?_⟩
  · exact (upload_success_spec env d none fn chunksA none hopen hwrite hprep
      ⟨none, rfl⟩ hname hA1 (le_of_eq hA2)).1
  · exact (upload_toolarge_spec env d none fn chunksB none hopen hwrite hprep
      ⟨none, rfl⟩ hname hB1 (by omega)).1

/-- Witness for C3 at single-chunk streams of exactly `524288000` and
`524288001` zero bytes. -/
theorem size_limit_boundary_strict_witness :
    (upload_video ⟨true, none, none, none⟩ ⟨true, 0⟩ none (some "v.mp4")
      [List.replicate MAX_VIDEO_SIZE_BYTES 0] none).status = 200 ∧
    (upload_video ⟨true, none, none, none⟩ ⟨true, 0⟩ none (some "v.mp4")
      [List.replicate (MAX_VIDEO_SIZE_BYTES + 1) 0] none).status = 413 := by
  have h := size_limit_boundary_strict ⟨true, none, none, none⟩ ⟨true, 0⟩
    (some "v.mp4") [List.replicate MAX_VIDEO_SIZE_BYTES 0]
    [List.replicate (MAX_VIDEO_SIZE_BYTES + 1) 0] rfl rfl ⟨⟨true, 0⟩, rfl⟩
    (by decide)
    (by
      intro c hc
      simp only [List.mem_singleton] at hc
      subst hc
      exact List.ne_nil_of_length_pos
        (by rw [List.length_replicate]; norm_num [MAX_VIDEO_SIZE_BYTES]))
    (by rw [List.map_singleton, List.length_replicate, List.sum_singleton])
    (by
      intro c hc
      simp only [List.mem_singleton] at hc
      subst hc
      exact List.ne_nil_of_length_pos
        (by rw [List.length_replicate]; norm_num [MAX_VIDEO_SIZE_BYTES]))
    (by rw [List.map_singleton, List.length_replicate, List.sum_singleton])
  exact ⟨h.2.2.1, h.2.2.2⟩

/-- Counterexample to C4 as stated: for the client name `"a/b "` the code's
sanitized filename is `"b"`, while the final path component is `"b "` — the
code additionally strips surrounding whitespace, so sanitization is not
"the final path component only". -/
theorem sanitize_differs_from_final_component :
    safeName "a/b " = "b" ∧ specFinalComponent "a/b " = "b " ∧
    safeName "a/b " ≠ specFinalComponent "a/b " :=
  ⟨by decide, by decide, by decide⟩

/-- Claim C4 (amended): sanitization reduces every client-supplied filename
to its final path component with surrounding whitespace stripped (so
`"../../etc/passwd"` still yields `"passwd"`), and whenever the result is
empty the request is rejected with 400 and the destination is never opened
nor any file created. -/
theorem sanitize_basename_strip_empty_rejected :
    (∀ s, safeName s = pyStrip (specFinalComponent s)) ∧
    safeName "../../etc/passwd" = "passwd" ∧
    (∀ (env : Env) (d : DirState) (header : Option String)
       (fn : Option String) (chunks : List (List Nat))
       (initFile : Option (List Nat)),
      (∃ r, _validate_content_length header = Except.ok r) →
      (∃ d', ensure_upload_dir_exists env.mkdirOk env.chmodExc d =
        Except.ok d') →
      safeName (fn.getD "") = "" →
      (upload_video env d header fn chunks initFile).status = 400 ∧
      (upload_video env d header fn chunks initFile).fileOnDisk = initFile ∧
      (upload_video env d header fn chunks initFile).destination = none) := by
  refine ⟨?_, by decide, ?_⟩
  · intro s
    unfold safeName
    rw [basename_eq_specFinalComponent]
  · intro env d header fn chunks initFile hhdr hprep hname
    obtain ⟨r0, hr⟩ := hhdr
    obtain ⟨d', hd⟩ := hprep
    unfold upload_video
    rw [hr, hd]
    simp [hname]

/-- Witness for the amended C4: the traversal example sanitizes to
`"passwd"`, and a separators-only name (`"//"`) is rejected with 400 with the
pre-existing disk state untouched. -/
theorem sanitize_basename_strip_empty_rejected_witness :
    safeName "../../etc/passwd" = "passwd" ∧
    (upload_video ⟨true, none, none, none⟩ ⟨true, 0⟩ none (some "//") [[1]]
      (some [9])).status = 400 ∧
    (upload_video ⟨true, none, none, none⟩ ⟨true, 0⟩ none (some "//") [[1]]
      (some [9])).fileOnDisk = some [9] :=
  have h := sanitize_basename_strip_empty_rejected
  have h400 := h.2.2 ⟨true, none, none, none⟩ ⟨true, 0⟩ none (some "//") [[1]]
    (some [9]) ⟨none, rfl⟩ ⟨⟨true, 0⟩, rfl⟩ (by decide)
  ⟨h.2.1, h400.1, h400.2.1⟩

/-- Counterexample to C5 as stated: `"-1"` is not a non-negative integer,
yet Python's `int` parses it, so the pre-check does not fail with 400 — it
accepts the header and returns the negative size. -/
theorem content_length_negative_accepted :
    pyParseInt "-1" = some (-1) ∧ (-1 : Int) < 0 ∧
    _validate_content_length (some "-1") = Except.ok (some (-1)) :=
  ⟨rfl, by decide, rfl⟩

/-- Claim C5 (amended): an absent `Content-Length` passes the pre-check as
"unknown"; a header that Python's `int` cannot parse fails with 400; any
parsed value at most the maximum — including negative values — is accepted
and returned. -/
theorem content_length_precheck_parse_amended :
    _validate_content_length none = Except.ok none ∧
    (∀ s, pyParseInt s = none →
      _validate_content_length (some s) = Except.error 400) ∧
    (∀ (s : String) (v : Int), pyParseInt s = some v →
      v ≤ (MAX_VIDEO_SIZE_BYTES : Int) →
      _validate_content_length (some s) = Except.ok (some v)) := by
  refine ⟨rfl, ?_, ?_⟩
  · intro s hs
    simp [_validate_content_length, hs]
  · intro s v hv hle
    simp only [_validate_content_length, hv]
    rw [if_neg (by omega : ¬ v > (MAX_VIDEO_SIZE_BYTES : Int))]

/-- Witness for the amended C5 at the headers `"abc"` (unparseable) and
`"-5"` (parseable, negative, accepted). -/
theorem content_length_precheck_parse_amended_witness :
    _validate_content_length none = Except.ok none ∧
    _validate_content_length (some "abc") = Except.error 400 ∧
    _validate_content_length (some "-5") = Except.ok (some (-5)) :=
  ⟨content_length_precheck_parse_amended.1,
   content_length_precheck_parse_amended.2.1 "abc" rfl,
   content_length_precheck_parse_amended.2.2 "-5" (-5) rfl (by decide)⟩

/-- Counterexample to C6 as stated: with the upload directory already
existing, a single prepare call still fails with 500 when `os.chmod` raises
an exception other than `PermissionError` — so prepare does not fail "only
when the directory cannot be created". -/
theorem prepare_fails_despite_existing_dir :
    (⟨true, 7⟩ : DirState).present = true ∧
    prepareN true (some PyExc.ioError) 1 ⟨true, 7⟩ = Except.error 500 :=
  ⟨rfl, rfl⟩

/-- Claim C6 (amended): when the directory already exists and each chmod
attempt either succeeds or raises only `PermissionError`, calling prepare N
times produces no error and leaves the directory unchanged (same identity);
and one prepare call fails (always with 500) exactly when either the
directory is absent and `mkdir` fails, or chmod raises something other than
`PermissionError`. -/
theorem prepare_idempotent_amended :
    (∀ (n : Nat) (mk : Bool) (ce : Option PyExc) (d : DirState),
      d.present = true →
      (ce = none ∨ ce = some PyExc.permissionError) →
      prepareN mk ce n d = Except.ok d) ∧
    (∀ (mk : Bool) (ce : Option PyExc) (d : DirState),
      ensure_upload_dir_exists mk ce d = Except.error 500 ↔
        ((d.present = false ∧ mk = false) ∨
         (ce ≠ none ∧ ce ≠ some PyExc.permissionError))) := by
  constructor
  · intro n
    induction n with
    | zero => intro mk ce d hp hc; rfl
    | succ n ih =>
      intro mk ce d hp hc
      simp only [prepareN, ensure_ok_of_present mk ce d hp hc, Except.bind]
      exact ih mk ce d hp hc
  · intro mk ce d
    rcases d with ⟨p, i⟩
    rcases ce with _ | e
    · cases p <;> cases mk <;> simp [ensure_upload_dir_exists]
    · cases e <;> cases p <;> cases mk <;> simp [ensure_upload_dir_exists]

/-- Witness for the amended C6: two prepare calls on an existing directory
keep it intact, and chmod raising a non-permission error makes a single call
fail with 500. -/
theorem prepare_idempotent_amended_witness :
    prepareN true none 2 ⟨true, 3⟩ = Except.ok ⟨true, 3⟩ ∧
    ensure_upload_dir_exists false (some PyExc.ioError) ⟨true, 3⟩ =
      Except.error 500 :=
  ⟨prepare_idempotent_amended.1 2 true none ⟨true, 3⟩ rfl (Or.inl rfl),
   (prepare_idempotent_amended.2 false (some PyExc.ioError) ⟨true, 3⟩).mpr
     (Or.inr ⟨by decide, by decide⟩)⟩

/-- Counterexample to C7 as stated: even when `mkdir` succeeds (directory
freshly created), a chmod failure that is not a `PermissionError` is fatal —
the prepare operation raises HTTP 500 instead of ignoring it. -/
theorem chmod_failure_fatal_counterexample :
    ensure_upload_dir_exists true (some PyExc.ioError) ⟨false, 0⟩ =
      Except.error 500 := rfl

/-- Claim C7 (amended): only `PermissionError` failures of the
permission-restriction step are silently ignored (the outcome is identical
to chmod succeeding); any other chmod exception makes directory preparation
fail with 500 even though the directory exists or was just created. -/
theorem chmod_permissionerror_only_nonfatal :
    (∀ (mk : Bool) (d : DirState),
      ensure_upload_dir_exists mk (some PyExc.permissionError) d =
        ensure_upload_dir_exists mk none d) ∧
    (∀ (mk : Bool) (d : DirState) (e : PyExc),
      e ≠ PyExc.permissionError →
      (d.present = true ∨ mk = true) →
      ensure_upload_dir_exists mk (some e) d = Except.error 500) := by
  constructor
  · intro mk d
    rcases d with ⟨p, i⟩
    cases p <;> cases mk <;> rfl
  · intro mk d e he hcreate
    rcases d with ⟨p, i⟩
    cases e with
    | permissionError => exact absurd rfl he
    | isADirectoryError =>
      cases p with
      | true => rfl
      | false =>
        rcases hcreate with h | h
        · simp at h
        · subst h; rfl
    | ioError =>
      cases p with
      | true => rfl
      | false =>
        rcases hcreate with h | h
        · simp at h
        · subst h; rfl

/-- Witness for the amended C7: chmod `PermissionError` is invisible in the
outcome, while an `IsADirectoryError`-class failure aborts with 500. -/
theorem chmod_permissionerror_only_nonfatal_witness :
    ensure_upload_dir_exists true (some PyExc.permissionError) ⟨true, 5⟩ =
      ensure_upload_dir_exists true none ⟨true, 5⟩ ∧
    ensure_upload_dir_exists false (some PyExc.isADirectoryError) ⟨true, 6⟩ =
      Except.error 500 :=
  ⟨chmod_permissionerror_only_nonfatal.1 true ⟨true, 5⟩,
   chmod_permissionerror_only_nonfatal.2 false ⟨true, 6⟩
     PyExc.isADirectoryError (by decide) (Or.inl rfl)⟩

/-- Claim C8: on every exit path of the receive operation — success,
limit-exceeded, or any injected open/write failure — the `finally` block has
closed the input stream before the handler returns.  (The receive operation
is the `try/finally` of main.py lines 182-215; the hypotheses say execution
has reached it.) -/
theorem stream_closed_on_all_receive_exits (env : Env) (d : DirState)
    (header : Option String) (fn : Option String) (chunks : List (List Nat))
    (initFile : Option (List Nat))
    (hprep : ∃ d', ensure_upload_dir_exists env.mkdirOk env.chmodExc d =
      Except.ok d')
    (hhdr : ∃ r, _validate_content_length header = Except.ok r)
    (hname : safeName (fn.getD "") ≠ "") :
    (upload_video env d header fn chunks initFile).streamClosed = true := by
  obtain ⟨d', hd⟩ := hprep
  obtain ⟨r0, hr⟩ := hhdr
  cases hoe : env.openExc with
  | some e => simp [upload_video, hr, hd, hname, hoe]
  | none =>
    cases hres : (receiveLoop env.writeExcAt chunks [] 0 0).result with
    | ok total => simp [upload_video, hr, hd, hname, hoe, hres]
    | error code => simp [upload_video, hr, hd, hname, hoe, hres]

/-- Witness for C8 at a successful one-chunk upload. -/
theorem stream_closed_on_all_receive_exits_witness :
    (upload_video ⟨true, none, none, none⟩ ⟨true, 0⟩ none (some "v.mp4")
      [[1, 2]] none).streamClosed = true :=
  stream_closed_on_all_receive_exits ⟨true, none, none, none⟩ ⟨true, 0⟩ none
    (some "v.mp4") [[1, 2]] none ⟨⟨true, 0⟩, rfl⟩ ⟨none, rfl⟩ (by decide)

/-- Claim C9: at every point of the receive loop the destination file holds
at most `MAX_VIDEO_SIZE_BYTES` bytes — the running total is checked before
the chunk is written, so the file size recorded after each write never
exceeds the limit, for any request whatsoever. -/
theorem written_bytes_never_exceed_limit (env : Env) (d : DirState)
    (header : Option String) (fn : Option String) (chunks : List (List Nat))
    (initFile : Option (List Nat)) :
    ∀ x ∈ (upload_video env d header fn chunks initFile).writeTrace,
      x ≤ MAX_VIDEO_SIZE_BYTES := by
  intro x hx
  simp only [upload_video] at hx
  split at hx
  · simp at hx
  · split at hx
    · simp at hx
    · split at hx
      · simp at hx
      · split at hx
        · simp at hx
        · split at hx
          · exact receiveLoop_trace_le env.writeExcAt chunks [] 0 0 rfl x
              (by simpa using hx)
          · exact receiveLoop_trace_le env.writeExcAt chunks [] 0 0 rfl x
              (by simpa using hx)

/-- Witness for C9: after the first write of a three-byte chunk the recorded
size 3 is within the limit. -/
theorem written_bytes_never_exceed_limit_witness : 3 ≤ MAX_VIDEO_SIZE_BYTES :=
  written_bytes_never_exceed_limit ⟨true, none, none, none⟩ ⟨true, 0⟩ none
    (some "v.mp4") [[1, 2, 3]] none 3 (by decide)

/-- Claim C10: a client filename whose final path component is `"."` or
`".."` passes sanitization (the sanitized name is nonempty, so no 400), the
handler proceeds to open the upload directory's self or parent path as the
destination, and — since opening a directory for writing raises — the
request fails with 500, not 400. -/
theorem dot_names_pass_sanitization_open_fails_500 (env : Env) (d : DirState)
    (header : Option String) (fn : Option String) (chunks : List (List Nat))
    (initFile : Option (List Nat))
    (hopen : ∃ e, env.openExc = some e)
    (hprep : ∃ d', ensure_upload_dir_exists env.mkdirOk env.chmodExc d =
      Except.ok d')
    (hhdr : ∃ r, _validate_content_length header = Except.ok r)
    (hname : safeName (fn.getD "") = "." ∨ safeName (fn.getD "") = "..") :
    safeName "." = "." ∧ safeName ".." = ".." ∧
    (upload_video env d header fn chunks initFile).status = 500 ∧
    (upload_video env d header fn chunks initFile).status ≠ 400 ∧
    (upload_video env d header fn chunks initFile).destination =
      some (UPLOAD_DIR ++ "/" ++ safeName (fn.getD "")) := by
  have hne : safeName (fn.getD "") ≠ "" := by
    rcases hname with h | h <;> rw [h] <;> decide
  obtain ⟨e, he⟩ := hopen
  obtain ⟨d', hd⟩ := hprep
  obtain ⟨r0, hr⟩ := hhdr
  refine ⟨by decide, by decide, ?_, ?_, ?_⟩ <;>
    simp [upload_video, hr, hd, hne, he]

/-- Witness for C10 at the filename `".."` with an `IsADirectoryError`
injected at open. -/
theorem dot_names_pass_sanitization_open_fails_500_witness :
    (upload_video ⟨true, none, some PyExc.isADirectoryError, none⟩ ⟨true, 0⟩
      none (some "..") [[1]] none).status = 500 ∧
    (upload_video ⟨true, none, some PyExc.isADirectoryError, none⟩ ⟨true, 0⟩
      none (some "..") [[1]] none).destination = some "/upload/.." := by
  have h := dot_names_pass_sanitization_open_fails_500
    ⟨true, none, some PyExc.isADirectoryError, none⟩ ⟨true, 0⟩ none
    (some "..") [[1]] none ⟨PyExc.isADirectoryError, rfl⟩ ⟨⟨true, 0⟩, rfl⟩
    ⟨none, rfl⟩ (Or.inr (by decide))
  exact ⟨h.2.2.1, by rw [h.2.2.2.2]; rfl⟩
